import Mathlib

/-!
Verification of the maida repository's configuration-reconciliation scripts.

The scripts read settings/URL configuration files as text, evaluate presence
and shape predicates over them, and rewrite fragments in place.  Strings are
embedded as `List Char` (named `Text` here); the Python string operations the
scripts use (`in`, `str.count`, `str.replace`, `str.split('\n')`,
`'\n'.join`, `str.rstrip`, the specific regexes of `re.sub`/`re.search`) are
given executable definitions below, and each script's transformation is a
function over `Text` translated line by line from its source file.
-/

namespace Maida

/-- File text as a list of characters. -/
abbrev Text := List Char

/-- The characters of a string literal. -/
def chars (s : String) : Text := s.data

/-- Python's `pat in s` substring test. -/
def containsSub : Text → Text → Bool
  | [], pat => pat.isEmpty
  | c :: rest, pat => pat.isPrefixOf (c :: rest) || containsSub rest pat

/-- Scanner behind `pyCount`: at `skip = 0` it tests for a match at the
current position and, on a match of length `n`, consumes the remaining
`n - 1` matched characters through the skip counter, so occurrences never
overlap, exactly as Python's `s.count(pat)` scans. -/
def pyCountGo (pat : Text) : Text → Nat → Nat
  | [], _ => 0
  | c :: rest, 0 =>
    if pat.isPrefixOf (c :: rest) then 1 + pyCountGo pat rest (pat.length - 1)
    else pyCountGo pat rest 0
  | _ :: rest, skip + 1 => pyCountGo pat rest skip

/-- Python's `s.count(pat)`: non-overlapping occurrences, scanning left to
right.  Every call site of the scripts passes a non-empty `pat`. -/
def pyCount (pat s : Text) : Nat := pyCountGo pat s 0

/-- Scanner behind `pyReplace`: as `pyCountGo`, but emitting `new` at each
match and dropping the matched characters. -/
def pyReplaceGo (old new : Text) : Text → Nat → Text
  | [], _ => []
  | c :: rest, 0 =>
    if old.isPrefixOf (c :: rest) then new ++ pyReplaceGo old new rest (old.length - 1)
    else c :: pyReplaceGo old new rest 0
  | _ :: rest, skip + 1 => pyReplaceGo old new rest skip

/-- Python's `s.replace(old, new)`: non-overlapping occurrences replaced left
to right.  Every call site of the scripts passes a non-empty `old`. -/
def pyReplace (old new s : Text) : Text := pyReplaceGo old new s 0

/-- Python's `s.split('\n')`: every separator splits, empty parts kept,
`""` gives `[""]`. -/
def splitNl : Text → List Text
  | [] => [[]]
  | c :: rest =>
    if c = '\n' then [] :: splitNl rest
    else
      match splitNl rest with
      | [] => [[c]]
      | l :: ls => (c :: l) :: ls

/-- Python's `'\n'.join(ls)`. -/
def joinNl : List Text → Text
  | [] => []
  | [l] => l
  | l :: ls => l ++ '\n' :: joinNl ls

theorem splitNl_ne_nil (s : Text) : splitNl s ≠ [] := by
  cases s with
  | nil => simp [splitNl]
  | cons c rest =>
    simp only [splitNl]
    split
    · simp
    · split <;> simp

theorem joinNl_cons_cons (l m : Text) (ls : List Text) :
    joinNl (l :: m :: ls) = l ++ '\n' :: joinNl (m :: ls) := rfl

/-- `'\n'.join` undoes `split('\n')`. -/
theorem joinNl_splitNl (s : Text) : joinNl (splitNl s) = s := by
  induction s with
  | nil => rfl
  | cons c rest ih =>
    by_cases hc : c = '\n'
    · subst hc
      cases h : splitNl rest with
      | nil => exact absurd h (splitNl_ne_nil rest)
      | cons l ls =>
        rw [h] at ih
        simp only [splitNl, if_pos rfl, h, joinNl_cons_cons, List.nil_append]
        exact congrArg (fun t => '\n' :: t) ih
    · cases h : splitNl rest with
      | nil => exact absurd h (splitNl_ne_nil rest)
      | cons l ls =>
        rw [h] at ih
        cases ls with
        | nil =>
          simp only [splitNl, if_neg hc, h, joinNl]
          simp only [joinNl] at ih
          exact congrArg (fun t => c :: t) ih
        | cons m ms =>
          simp only [splitNl, if_neg hc, h, joinNl_cons_cons, List.cons_append] at ih ⊢
          exact congrArg (fun t => c :: t) ih

end Maida

namespace Maida

/-! ### project_structure_analyzer.py -/

/-- `ProjectStructureAnalyzer._calculate_score`: base score 50, plus 3 per
recorded strength, minus 5 per recorded issue, capped into 0..100 by
`max(0, min(100, score))`. -/
def _calculate_score (strengths issues : Nat) : Int :=
  max 0 (min 100 (50 + 3 * (strengths : Int) - 5 * (issues : Int)))

/-! ### manage_safe.py -/

/-- An operating-system environment: variable name to optional value. -/
def OsEnv := String → Option String

/-- `os.environ.setdefault(k, v)`: sets `k` to `v` only when `k` is unset. -/
def setdefault (env : OsEnv) (k v : String) : OsEnv :=
  fun q => if q = k then some ((env k).getD v) else env q

/-- `os.environ[k] = v`: unconditional assignment. -/
def setenv (env : OsEnv) (k v : String) : OsEnv :=
  fun q => if q = k then some v else env q

/-- The environment mutations `manage_safe.py` performs before handing over
to Django: `DJANGO_SETTINGS_MODULE` is only defaulted, `DATABASE_URL` is
assigned unconditionally. -/
def manage_safe_env (env : OsEnv) : OsEnv :=
  setenv (setdefault env "DJANGO_SETTINGS_MODULE" "config.settings.local")
    "DATABASE_URL" "sqlite:///db.sqlite3"

/-- C9: the structure score computed by the analyzer is always an integer in
the closed interval [0, 100], for every number of recorded strengths and
issues: the raw score 50 + 3*strengths - 5*issues is clamped at both ends. -/
theorem structure_score_bounds (strengths issues : Nat) :
    0 ≤ _calculate_score strengths issues ∧ _calculate_score strengths issues ≤ 100 := by
  unfold _calculate_score
  constructor
  · exact le_max_left 0 _
  · have h := min_le_left (100 : Int) (50 + 3 * (strengths : Int) - 5 * (issues : Int))
    omega

/-- C10: after the safe management wrapper's startup mutations,
`DATABASE_URL` always equals the SQLite value, even when the invoking
environment already set it, while `DJANGO_SETTINGS_MODULE` keeps the
caller's value when one was set and is defaulted to
`config.settings.local` otherwise. -/
theorem manage_safe_env_behaviour (env : OsEnv) :
    manage_safe_env env "DATABASE_URL" = some "sqlite:///db.sqlite3" ∧
    manage_safe_env env "DJANGO_SETTINGS_MODULE" =
      some ((env "DJANGO_SETTINGS_MODULE").getD "config.settings.local") := by
  constructor
  · simp [manage_safe_env, setenv]
  · simp [manage_safe_env, setenv, setdefault]

end Maida

namespace Maida

/-! ### utility/archive/fix_middleware_order.py

The script reads `config/settings/base.py` with `readlines()` (each line
keeps its trailing newline), drops every line containing the
BasketMiddleware dotted path, and re-inserts the canonical BasketMiddleware
line after a line containing the AuthenticationMiddleware dotted path,
provided a BasketMiddleware line was already seen at that point. -/

/-- The line the script inserts (`basket_middleware_line`). -/
def basket_middleware_line : Text :=
  chars "    \"oscar.apps.basket.middleware.BasketMiddleware\",\n"

/-- Line test `'oscar.apps.basket.middleware.BasketMiddleware' in line`. -/
def isBasketLine (l : Text) : Bool :=
  containsSub l (chars "oscar.apps.basket.middleware.BasketMiddleware")

/-- Line test `'django.contrib.auth.middleware.AuthenticationMiddleware' in line`. -/
def isAuthLine (l : Text) : Bool :=
  containsSub l (chars "django.contrib.auth.middleware.AuthenticationMiddleware")

/-- The script's loop over `lines`, carrying `found_basket_middleware`. -/
def middlewareLoop : List Text → Bool → List Text
  | [], _ => []
  | l :: rest, found =>
    if isBasketLine l then
      middlewareLoop rest true
    else if isAuthLine l && found then
      l :: basket_middleware_line :: middlewareLoop rest found
    else
      l :: middlewareLoop rest found

/-- The whole transformation `fix_middleware_order.py` applies to the file's
line list (`found_basket_middleware` starts out false). -/
def fix_middleware_order (lines : List Text) : List Text :=
  middlewareLoop lines false

/-- The AuthenticationMiddleware line as `config/settings/base.py` carries it. -/
def authentication_middleware_line : Text :=
  chars "    \"django.contrib.auth.middleware.AuthenticationMiddleware\",\n"

/-- C1: the middleware-order fix is not idempotent.  On the unpatched order
(BasketMiddleware before AuthenticationMiddleware) one run produces the
patched order, but a second run — equally, any run on a file where
BasketMiddleware already follows AuthenticationMiddleware — deletes the
BasketMiddleware line outright: when the Authentication line is processed
the `found_basket_middleware` flag is still false, so the skipped Basket
line is never re-inserted. -/
theorem fix_middleware_order_rerun_drops_line :
    fix_middleware_order [basket_middleware_line, authentication_middleware_line] =
      [authentication_middleware_line, basket_middleware_line] ∧
    fix_middleware_order [authentication_middleware_line, basket_middleware_line] =
      [authentication_middleware_line] ∧
    fix_middleware_order
        (fix_middleware_order [basket_middleware_line, authentication_middleware_line]) ≠
      fix_middleware_order [basket_middleware_line, authentication_middleware_line] := by
  refine ⟨by decide, by decide, ?_⟩
  decide

end Maida

namespace Maida

/-! ### Facts about the Python string primitives -/

/-- `containsSub` agrees with the mathematical occurrence relation. -/
theorem containsSub_iff (s pat : Text) :
    containsSub s pat = true ↔ ∃ u v, s = u ++ pat ++ v := by
  induction s with
  | nil =>
    simp only [containsSub, List.isEmpty_iff]
    constructor
    · rintro rfl; exact ⟨[], [], rfl⟩
    · rintro ⟨u, v, h⟩
      rcases List.append_eq_nil.mp h.symm with ⟨h1, h2⟩
      exact (List.append_eq_nil.mp h1).2
  | cons c rest ih =>
    simp only [containsSub, Bool.or_eq_true, List.isPrefixOf_iff_prefix]
    constructor
    · rintro (⟨t, ht⟩ | h)
      · exact ⟨[], t, by simpa using ht.symm⟩
      · rcases ih.mp h with ⟨u, v, hv⟩
        exact ⟨c :: u, v, by simp [hv]⟩
    · rintro ⟨u, v, hv⟩
      cases u with
      | nil => exact Or.inl ⟨v, by simpa using hv.symm⟩
      | cons x u =>
        right
        apply ih.mpr
        refine ⟨u, v, ?_⟩
        simpa using congrArg List.tail hv

/-- An occurrence of a longer pattern contains any occurrence of a pattern
it wraps. -/
theorem containsSub_of_wrapped (s u pat v : Text)
    (h : containsSub s (u ++ pat ++ v) = true) : containsSub s pat = true := by
  rcases (containsSub_iff s _).mp h with ⟨x, y, hy⟩
  exact (containsSub_iff s pat).mpr ⟨x ++ u, v ++ y, by simp [hy]⟩

/-- `s.replace(old, new)` with `old` absent returns `s` unchanged. -/
theorem pyReplace_of_not_contains (old new s : Text)
    (h : containsSub s old = false) : pyReplace old new s = s := by
  unfold pyReplace
  induction s with
  | nil => rfl
  | cons c rest ih =>
    simp only [containsSub, Bool.or_eq_false_iff] at h
    rw [pyReplaceGo, if_neg (by simp [h.1])]
    exact congrArg (fun t => c :: t) (ih h.2)

/-- `s.count(pat)` is zero when `pat` is absent. -/
theorem pyCount_of_not_contains (pat s : Text)
    (h : containsSub s pat = false) : pyCount pat s = 0 := by
  unfold pyCount
  induction s with
  | nil => rfl
  | cons c rest ih =>
    simp only [containsSub, Bool.or_eq_false_iff] at h
    rw [pyCountGo, if_neg (by simp [h.1])]
    exact ih h.2

end Maida

namespace Maida

/-! ### utility/archive/fix_flatpages.py

Two guarded `str.replace` insertions on the text of
`config/settings/base.py`: the flatpages app after the admin app entry, and
the flatpages fallback middleware after Wagtail's redirect middleware. -/

/-- Anchor of the first insertion: `"django.contrib.admin",`. -/
def flatpagesAdminAnchor : Text := chars "\"django.contrib.admin\","

/-- Replacement of the first insertion. -/
def flatpagesAdminReplacement : Text :=
  chars "\"django.contrib.admin\",\n    \"django.contrib.flatpages\","

/-- Anchor of the second insertion: Wagtail's redirect middleware entry. -/
def redirectMiddlewareAnchor : Text :=
  chars "\"wagtail.contrib.redirects.middleware.RedirectMiddleware\","

/-- Replacement of the second insertion. -/
def redirectMiddlewareReplacement : Text :=
  chars "\"wagtail.contrib.redirects.middleware.RedirectMiddleware\",\n    \"django.contrib.flatpages.middleware.FlatpageFallbackMiddleware\","

/-- First step: `if 'django.contrib.flatpages' not in content` then replace
the admin anchor. -/
def flatpagesAppsStep (content : Text) : Text :=
  if containsSub content (chars "django.contrib.flatpages") then content
  else pyReplace flatpagesAdminAnchor flatpagesAdminReplacement content

/-- Second step: `if 'django.contrib.flatpages.middleware.FlatpageFallbackMiddleware'
not in content` then replace the redirect-middleware anchor. -/
def flatpagesMiddlewareStep (content : Text) : Text :=
  if containsSub content (chars "django.contrib.flatpages.middleware.FlatpageFallbackMiddleware") then content
  else pyReplace redirectMiddlewareAnchor redirectMiddlewareReplacement content

/-- The whole transformation of `fix_flatpages.py`. -/
def fix_flatpages (content : Text) : Text :=
  flatpagesMiddlewareStep (flatpagesAppsStep content)

/-! ### The `re` fragments the patchers use

`fix_local_apps.py` and `fix_oscar_v4.py` call
`re.sub(r'NAME\s*=\s*\[.*?\]', ..., flags including DOTALL)`: the character
class `\s` never matches `=` or `[`, so the greedy `\s*` runs are exactly
the maximal whitespace runs, and the non-greedy `.*?` (with DOTALL) extends
to the first `]`.  `re.sub` replaces the leftmost non-overlapping matches,
restarting one character on when no match starts at the current position. -/

/-- Python's `\s` class. -/
def isPyWs (c : Char) : Bool :=
  c = ' ' || c = '\t' || c = '\n' || c = '\r' || c = '\x0b' || c = '\x0c'

/-- Match `LIT\s*=\s*\[` then the shortest `[\s\S]*?` up to a closing `]`
at the head of `s`.  Returns the text of group 1 (`LIT\s*=\s*\[`), group 2
(the list body) and the remainder after the matched `]`. -/
def matchHeadList (lit : Text) (s : Text) : Option (Text × Text × Text) :=
  if lit.isPrefixOf s then
    let s1 := s.drop lit.length
    let w1 := s1.takeWhile isPyWs
    match s1.dropWhile isPyWs with
    | '=' :: s2 =>
      let w2 := s2.takeWhile isPyWs
      match s2.dropWhile isPyWs with
      | '[' :: s3 =>
        match s3.dropWhile (fun c => !(c = ']')) with
        | ']' :: s4 =>
          some (lit ++ w1 ++ '=' :: w2 ++ ['['], s3.takeWhile (fun c => !(c = ']')), s4)
        | _ => none
      | _ => none
    | _ => none
  else none

/-- `re.sub` over `s`, driven by a head matcher that returns the replacement
text for a match at the current position and the remainder after it.  The
fuel starts at `s.length`; every step consumes at least one character, so
the fuel never runs out on the initial call. -/
def reSubGo (m : Text → Option (Text × Text)) : Nat → Text → Text
  | 0, s => s
  | _ + 1, [] => []
  | fuel + 1, c :: rest =>
    match m (c :: rest) with
    | some (rep, tailAfter) => rep ++ reSubGo m fuel tailAfter
    | none => c :: reSubGo m fuel rest

/-- `re.sub` leaves the text unchanged when no position matches. -/
theorem reSubGo_of_no_match (m : Text → Option (Text × Text)) :
    ∀ fuel s, (∀ i, m (s.drop i) = none) → reSubGo m fuel s = s := by
  intro fuel
  induction fuel with
  | zero => intro s _; rfl
  | succ n ih =>
    intro s h
    cases s with
    | nil => rfl
    | cons c rest =>
      have h0 : m (c :: rest) = none := by simpa using h 0
      have hrest : ∀ i, m (rest.drop i) = none := by
        intro i
        simpa [List.drop_succ_cons] using h (i + 1)
      simp only [reSubGo, h0]
      exact congrArg (fun t => c :: t) (ih rest hrest)

/-- A bounded scan over all start positions extends to every position: past
the end of the text every suffix is `[]`. -/
theorem no_match_of_all_range (m : Text → Option (Text × Text)) (s : Text)
    (hnil : m [] = none)
    (h : (List.range (s.length + 1)).all (fun i => (m (s.drop i)).isNone) = true) :
    ∀ i, m (s.drop i) = none := by
  intro i
  by_cases hi : i ≤ s.length
  · have hm := List.all_eq_true.mp h i (List.mem_range.mpr (by omega))
    simpa [Option.isNone_iff_eq_none] using hm
  · rw [List.drop_eq_nil_of_le (by omega)]
    exact hnil

/-! ### utility/archive/fix_local_apps.py -/

/-- The constant replacement `local_apps_replacement` of the script. -/
def local_apps_replacement : Text :=
  chars "LOCAL_APPS = [\n    \"maida_vale.users\",\n    \"maida_vale.nesosa\",\n    \"maida_vale.manufacturing\",\n    \"maida_vale.uk_compliance\",\n]"

/-- Head match for `re.sub(r'LOCAL_APPS\s*=\s*\[.*?\]', ..., flags=re.DOTALL)`. -/
def matchLocalApps (s : Text) : Option (Text × Text) :=
  match matchHeadList (chars "LOCAL_APPS") s with
  | some (_, _, rest) => some (local_apps_replacement, rest)
  | none => none

/-- The whole transformation of `fix_local_apps.py`. -/
def fix_local_apps (content : Text) : Text :=
  reSubGo matchLocalApps content.length content

end Maida

namespace Maida

/-! ### utility/archive/fix_oscar_v4.py

`fix_oscar_v4_configuration` backs the file up (modelled with the event
traces further down), then applies a chain of text edits: removal of the
Oscar 3.x import, removal of the `+ get_core_apps()` suffix, a
`re.sub(r'(THIRD_PARTY_APPS\s*=\s*\[)([\s\S]*?)(\])', update_third_party_apps, ...)`
rewrite, a guarded middleware insertion after the session middleware, and a
guarded `SITE_ID = 1` addition. -/

/-- Python's `s.rstrip(...)` for a class of stripped characters. -/
def rstripP (p : Char → Bool) (s : Text) : Text :=
  (s.reverse.dropWhile p).reverse

/-- The `oscar_apps` block the script splices into `THIRD_PARTY_APPS`. -/
def oscar_apps : Text :=
  chars "\n    # Oscar core apps (must be before oscar)\n    \"oscar.config.Shop\",\n    \"oscar.apps.analytics.apps.AnalyticsConfig\",\n    \"oscar.apps.checkout.apps.CheckoutConfig\",\n    \"oscar.apps.address.apps.AddressConfig\",\n    \"oscar.apps.shipping.apps.ShippingConfig\",\n    \"oscar.apps.catalogue.apps.CatalogueConfig\",\n    \"oscar.apps.catalogue.reviews.apps.CatalogueReviewsConfig\",\n    \"oscar.apps.communication.apps.CommunicationConfig\",\n    \"oscar.apps.partner.apps.PartnerConfig\",\n    \"oscar.apps.basket.apps.BasketConfig\",\n    \"oscar.apps.payment.apps.PaymentConfig\",\n    \"oscar.apps.offer.apps.OfferConfig\",\n    \"oscar.apps.order.apps.OrderConfig\",\n    \"oscar.apps.customer.apps.CustomerConfig\",\n    \"oscar.apps.search.apps.SearchConfig\",\n    \"oscar.apps.voucher.apps.VoucherConfig\",\n    \"oscar.apps.wishlists.apps.WishlistsConfig\",\n    \"oscar.apps.dashboard.apps.DashboardConfig\",\n    \"oscar.apps.dashboard.reports.apps.ReportsDashboardConfig\",\n    \"oscar.apps.dashboard.users.apps.UsersDashboardConfig\",\n    \"oscar.apps.dashboard.orders.apps.OrdersDashboardConfig\",\n    \"oscar.apps.dashboard.catalogue.apps.CatalogueDashboardConfig\",\n    \"oscar.apps.dashboard.offers.apps.OffersDashboardConfig\",\n    \"oscar.apps.dashboard.partners.apps.PartnersDashboardConfig\",\n    \"oscar.apps.dashboard.pages.apps.PagesDashboardConfig\",\n    \"oscar.apps.dashboard.ranges.apps.RangesDashboardConfig\",\n    \"oscar.apps.dashboard.reviews.apps.ReviewsDashboardConfig\",\n    \"oscar.apps.dashboard.vouchers.apps.VouchersDashboardConfig\",\n    \"oscar.apps.dashboard.communications.apps.CommunicationsDashboardConfig\",\n    \"oscar.apps.dashboard.shipping.apps.ShippingDashboardConfig\",\n    # Oscar dependencies\n    \"django_tables2\",\n"

/-- The replacement function `update_third_party_apps` applied to group 1
(`THIRD_PARTY_APPS\s*=\s*\[`) and group 2 (the list body); group 3 is the
literal `]`. -/
def update_third_party_apps (g1 apps : Text) : Text :=
  if containsSub apps (chars "oscar.config.Shop") then g1 ++ apps ++ [']']
  else
    let filtered := (splitNl apps).filter
      (fun l => !(containsSub l (chars "\'oscar\'") || containsSub l (chars "\"oscar\"")))
    let apps1 := rstripP (fun c => c = ',') (rstripP isPyWs (joinNl filtered))
    let apps2 := if apps1.any (fun c => !isPyWs c) then apps1 ++ chars ",\n" else apps1
    g1 ++ apps2 ++ oscar_apps ++ [']']

/-- Head match for the `THIRD_PARTY_APPS` pattern with the function
replacement. -/
def matchThirdParty (s : Text) : Option (Text × Text) :=
  match matchHeadList (chars "THIRD_PARTY_APPS") s with
  | some (g1, apps, rest) => some (update_third_party_apps g1 apps, rest)
  | none => none

/-- A match of `re.search(r'SITE_ID\s*=\s*\d+', ...)` starting at the head
of `s`. -/
def siteIdAt (s : Text) : Bool :=
  if (chars "SITE_ID").isPrefixOf s then
    match (s.drop 7).dropWhile isPyWs with
    | '=' :: s2 =>
      match s2.dropWhile isPyWs with
      | c :: _ => c.isDigit
      | [] => false
    | _ => false
  else false

/-- `re.search(r'SITE_ID\s*=\s*\d+', s)` finds a match somewhere in `s`. -/
def hasSiteId : Text → Bool
  | [] => false
  | c :: rest => siteIdAt (c :: rest) || hasSiteId rest

/-- The session-middleware anchor of the middleware insertion. -/
def sessionMiddlewareLine : Text :=
  chars "\"django.contrib.sessions.middleware.SessionMiddleware\","

/-- The `middleware_addition` block. -/
def oscarMiddlewareAddition : Text :=
  chars "\n    # Oscar middleware\n    \"oscar.apps.basket.middleware.BasketMiddleware\","

/-- The whole text transformation of `fix_oscar_v4_configuration` between
its read of `base.py` and its write-back. -/
def fix_oscar_v4_configuration (content : Text) : Text :=
  let c1 := pyReplace (chars "from oscar import get_core_apps") [] content
  let c2 :=
    if containsSub c1 (chars "] + get_core_apps()") then
      pyReplace (chars "] + get_core_apps()") (chars "]")
        (pyReplace (chars "] + get_core_apps()  # Add all Oscar apps") (chars "]") c1)
    else c1
  let c3 := reSubGo matchThirdParty c2.length c2
  let c4 :=
    if containsSub c3 (chars "oscar.apps.basket.middleware.BasketMiddleware") then c3
    else pyReplace sessionMiddlewareLine (sessionMiddlewareLine ++ oscarMiddlewareAddition) c3
  if hasSiteId c4 then c4
  else if containsSub c4 (chars "from oscar.defaults import *") then
    pyReplace (chars "from oscar.defaults import *")
      (chars "SITE_ID = 1\n\nfrom oscar.defaults import *") c4
  else c4 ++ chars "\nSITE_ID = 1\n"

end Maida

namespace Maida

/-- C3 counterexample: a file in which none of the patch anchor patterns of
`fix_oscar_v4.py` occurs — no `THIRD_PARTY_APPS` list, no `SITE_ID`
setting, no `oscar` text, no middleware entries at all — is still mutated
by the patcher: the `SITE_ID` step finds neither its setting nor its
`from oscar.defaults import *` insertion point and appends `SITE_ID = 1`
at the end of the file, so the result is not byte-equal to the original. -/
theorem fix_oscar_v4_mutates_without_anchor :
    containsSub (chars "X = 1\n") (chars "THIRD_PARTY_APPS") = false ∧
    containsSub (chars "X = 1\n") (chars "SITE_ID") = false ∧
    containsSub (chars "X = 1\n") (chars "oscar") = false ∧
    containsSub (chars "X = 1\n") (chars "Middleware") = false ∧
    fix_oscar_v4_configuration (chars "X = 1\n") = chars "X = 1\n\nSITE_ID = 1\n" ∧
    fix_oscar_v4_configuration (chars "X = 1\n") ≠ chars "X = 1\n" := by
  refine ⟨by decide, by decide, by decide, by decide, by decide, ?_⟩
  decide

/-- C3 (amended): for the anchored replace/regex patchers `fix_flatpages.py`
and `fix_local_apps.py`, an input in which the anchor patterns do not occur
is returned byte-equal: `str.replace` with an absent pattern and `re.sub`
with no match both leave the text unchanged. -/
theorem patch_anchor_absent_noop (content : Text)
    (h1 : containsSub content flatpagesAdminAnchor = false)
    (h2 : containsSub content redirectMiddlewareAnchor = false)
    (h3 : (List.range (content.length + 1)).all
      (fun i => (matchLocalApps (content.drop i)).isNone) = true) :
    fix_flatpages content = content ∧ fix_local_apps content = content := by
  constructor
  · have s1 : flatpagesAppsStep content = content := by
      unfold flatpagesAppsStep
      split
      · rfl
      · exact pyReplace_of_not_contains _ _ _ h1
    have s2 : flatpagesMiddlewareStep content = content := by
      unfold flatpagesMiddlewareStep
      split
      · rfl
      · exact pyReplace_of_not_contains _ _ _ h2
    rw [fix_flatpages, s1, s2]
  · exact reSubGo_of_no_match matchLocalApps content.length content
      (no_match_of_all_range matchLocalApps content rfl h3)

/-- Witness for the amended C3 at the concrete file `X = 1\n`. -/
theorem patch_anchor_absent_noop_witness :
    fix_flatpages (chars "X = 1\n") = chars "X = 1\n" ∧
    fix_local_apps (chars "X = 1\n") = chars "X = 1\n" :=
  patch_anchor_absent_noop (chars "X = 1\n") (by decide) (by decide) (by decide)

end Maida

namespace Maida

/-! ### File-system event traces of the patchers

Each patcher performs one read–modify–write cycle (the `fix_urls_*` and
`update_urls` scripts write a fixed replacement without reading); only
`fix_oscar_v4.py` and `fix_oscar_settings.py` copy the target to a
timestamped backup (`shutil.copy`) before touching it.  The traces list
the file operations of all twelve patcher scripts in the order each
performs them. -/

/-- A file-system operation of a patcher run. -/
inductive FileEvent
  | read (path : String)
  | backupCopy (src dst : String)
  | write (path : String)

/-- The settings file the archive patchers target. -/
def baseSettingsPath : String := "config/settings/base.py"

/-- The absolute path `fix_oscar_v4.py` hard-codes. -/
def oscarBasePath : String := "/Users/saman/Maida/maida_vale/config/settings/base.py"

/-- `fix_flatpages.py`: `open(...,'r')`, then `open(...,'w')` — no backup. -/
def fix_flatpages_events : List FileEvent :=
  [.read baseSettingsPath, .write baseSettingsPath]

/-- `fix_middleware_order.py`: read then write-back, no backup. -/
def fix_middleware_order_events : List FileEvent :=
  [.read baseSettingsPath, .write baseSettingsPath]

/-- `fix_local_apps.py`: read then write-back, no backup. -/
def fix_local_apps_events : List FileEvent :=
  [.read baseSettingsPath, .write baseSettingsPath]

/-- `fix_duplicate_tables2.py`: read, and a write only inside the
`occurrences > 1` branch; no backup either way. -/
def fix_duplicate_tables2_events (content : Text) : List FileEvent :=
  [FileEvent.read baseSettingsPath] ++
    (if pyCount (chars "\"django_tables2\"") content > 1
     then [FileEvent.write baseSettingsPath] else [])

/-- `fix_oscar_v4.py`: `shutil.copy` to the timestamped backup path first,
then read, then write. -/
def fix_oscar_v4_events (timestamp : String) : List FileEvent :=
  [.backupCopy oscarBasePath
      ("/Users/saman/Maida/maida_vale/config/settings/base.backup_" ++ timestamp),
    .read oscarBasePath, .write oscarBasePath]

/-- `fix_oscar_settings.py`: the same timestamped `shutil.copy` backup of
the same absolute path, then read, then write. -/
def fix_oscar_settings_events (timestamp : String) : List FileEvent :=
  [.backupCopy oscarBasePath
      ("/Users/saman/Maida/maida_vale/config/settings/base.backup_" ++ timestamp),
    .read oscarBasePath, .write oscarBasePath]

/-- `fix_django_tables2.py`: `readlines()` then write-back, no backup. -/
def fix_django_tables2_events : List FileEvent :=
  [.read baseSettingsPath, .write baseSettingsPath]

/-- `fix_allauth_settings.py`: read then write-back, no backup. -/
def fix_allauth_settings_events : List FileEvent :=
  [.read baseSettingsPath, .write baseSettingsPath]

/-- The URL-routing file the `fix_urls_*` and `update_urls` scripts target. -/
def urlsPath : String := "config/urls.py"

/-- `fix_urls_oscar3.py`: writes the replacement `urls.py` outright, no
read and no backup. -/
def fix_urls_oscar3_events : List FileEvent := [.write urlsPath]

/-- `fix_urls_apps.py`: writes the replacement `urls.py` outright, no read
and no backup. -/
def fix_urls_apps_events : List FileEvent := [.write urlsPath]

/-- `fix_urls_oscar326.py`: writes the replacement `urls.py` outright, no
read and no backup. -/
def fix_urls_oscar326_events : List FileEvent := [.write urlsPath]

/-- `update_urls.py`: writes the replacement `urls.py` outright, no read
and no backup. -/
def update_urls_events : List FileEvent := [.write urlsPath]

/-- Every `write` in the trace is preceded by some `backupCopy`; `seen`
carries whether a backup has happened yet. -/
def writesBackedUp (seen : Bool) : List FileEvent → Bool
  | [] => true
  | .backupCopy _ _ :: rest => writesBackedUp true rest
  | .write _ :: rest => seen && writesBackedUp seen rest
  | .read _ :: rest => writesBackedUp seen rest

/-- C4 counterexample: `fix_flatpages.py` writes the mutated settings file
without ever taking a backup copy, so "every patcher backs up before
writing" fails on it. -/
theorem fix_flatpages_writes_without_backup :
    writesBackedUp false fix_flatpages_events = false ∧
    fix_flatpages_events.length = 2 := by
  exact ⟨rfl, rfl⟩

/-- C4 (amended): of the twelve patcher scripts, exactly two —
`fix_oscar_v4.py` and `fix_oscar_settings.py` — create a backup copy
before their write; the other ten (the deduplicator shown on a file it
does patch) write the target file with no preceding backup in the same
invocation. -/
theorem backup_before_write_two_oscar_scripts (timestamp : String) :
    writesBackedUp false (fix_oscar_v4_events timestamp) = true ∧
    writesBackedUp false (fix_oscar_settings_events timestamp) = true ∧
    writesBackedUp false fix_flatpages_events = false ∧
    writesBackedUp false fix_middleware_order_events = false ∧
    writesBackedUp false fix_local_apps_events = false ∧
    writesBackedUp false
      (fix_duplicate_tables2_events
        (chars "    \"django_tables2\",\n    \"django_tables2\",\n")) = false ∧
    writesBackedUp false fix_django_tables2_events = false ∧
    writesBackedUp false fix_allauth_settings_events = false ∧
    writesBackedUp false fix_urls_oscar3_events = false ∧
    writesBackedUp false fix_urls_apps_events = false ∧
    writesBackedUp false fix_urls_oscar326_events = false ∧
    writesBackedUp false update_urls_events = false := by
  refine ⟨rfl, rfl, rfl, rfl, rfl, ?_, rfl, rfl, rfl, rfl, rfl, rfl⟩
  decide

end Maida

namespace Maida

/-! ### utility/archive/fix_duplicate_tables2.py

The script counts occurrences of the quoted entry `"django_tables2"` in the
whole file text; when the count exceeds one it splits the text into lines
and keeps only the first line containing the unquoted `django_tables2`,
dropping every later line containing it (each drop is logged), then joins
and writes back.  Otherwise it leaves the file alone. -/

/-- The unquoted filter pattern `'django_tables2'` of the line loop. -/
def tables2Pat : Text := chars "django_tables2"

/-- The quoted pattern `'"django_tables2"'` of the occurrence count. -/
def quotedTables2 : Text := chars "\"django_tables2\""

/-- Line test `'django_tables2' in line`. -/
def hasTables2 (l : Text) : Bool := containsSub l tables2Pat

/-- The `found_first` loop: keeps the first matching line, drops later
ones; the second component counts the dropped (logged) lines. -/
def dedupLoop : List Text → Bool → List Text × Nat
  | [], _ => ([], 0)
  | l :: rest, foundFirst =>
    if hasTables2 l then
      if foundFirst then
        let r := dedupLoop rest foundFirst
        (r.1, r.2 + 1)
      else
        let r := dedupLoop rest true
        (l :: r.1, r.2)
    else
      let r := dedupLoop rest foundFirst
      (l :: r.1, r.2)

/-- The whole transformation of `fix_duplicate_tables2.py`: the resulting
file text and the number of logged removals. -/
def fix_duplicate_tables2 (content : Text) : Text × Nat :=
  if pyCount quotedTables2 content > 1 then
    let r := dedupLoop (splitNl content) false
    (joinNl r.1, r.2)
  else (content, 0)

/-- Repeated runs of the deduplication patch. -/
def dedupRuns : Nat → Text → Text
  | 0, c => c
  | n + 1, c => dedupRuns n (fix_duplicate_tables2 c).1

/-- The line-level behaviour C8 describes, written from the claim: every
line after the first one containing the unquoted substring is removed,
whether or not it was counted as a quoted duplicate. -/
def linesAfterFirstRemoved : List Text → List Text
  | [] => []
  | l :: rest =>
    if hasTables2 l then l :: rest.filter (fun x => !hasTables2 x)
    else l :: linesAfterFirstRemoved rest

/-! Facts about the deduplication loop. -/

theorem dedupLoop_true (ls : List Text) :
    dedupLoop ls true = (ls.filter (fun l => !hasTables2 l), ls.countP hasTables2) := by
  induction ls with
  | nil => rfl
  | cons l rest ih =>
    by_cases h : hasTables2 l
    · simp [dedupLoop, h, ih, List.countP_cons, List.filter_cons]
    · simp [dedupLoop, h, ih, List.countP_cons, List.filter_cons]

theorem dedupLoop_false_fst (ls : List Text) :
    (dedupLoop ls false).1 = linesAfterFirstRemoved ls := by
  induction ls with
  | nil => rfl
  | cons l rest ih =>
    by_cases h : hasTables2 l
    · simp [dedupLoop, h, dedupLoop_true, linesAfterFirstRemoved]
    · simp [dedupLoop, h, ih, linesAfterFirstRemoved]

theorem dedupLoop_false_snd (ls : List Text) :
    (dedupLoop ls false).2 = ls.countP hasTables2 - 1 := by
  induction ls with
  | nil => rfl
  | cons l rest ih =>
    by_cases h : hasTables2 l
    · simp [dedupLoop, h, dedupLoop_true, List.countP_cons]
    · simp [dedupLoop, h, ih, List.countP_cons]

theorem dedupLoop_false_countP (ls : List Text) :
    (dedupLoop ls false).1.countP hasTables2 = min (ls.countP hasTables2) 1 := by
  induction ls with
  | nil => rfl
  | cons l rest ih =>
    by_cases h : hasTables2 l
    · have hfilter : (rest.filter (fun l => !hasTables2 l)).countP hasTables2 = 0 := by
        rw [List.countP_filter]
        simp
      simp [dedupLoop, h, dedupLoop_true, List.countP_cons, hfilter]
    · simp [dedupLoop, h, ih, List.countP_cons]

theorem dedupLoop_sublist (ls : List Text) (b : Bool) :
    (dedupLoop ls b).1.Sublist ls := by
  induction ls generalizing b with
  | nil => simp [dedupLoop]
  | cons l rest ih =>
    by_cases h : hasTables2 l
    · cases b
      · simpa [dedupLoop, h] using (ih true).cons₂ l
      · simpa [dedupLoop, h] using (ih true).cons l
    · simpa [dedupLoop, h] using (ih b).cons₂ l

end Maida

namespace Maida

/-! ### Counting occurrences line by line

The quoted pattern contains no newline, so every occurrence lies within one
line; the left-to-right non-overlapping scan therefore distributes over
`'\n'.join`. -/

/-- Skipping exactly the length of a prefix resumes the scan after it. -/
theorem pyCountGo_skip (pat u s : Text) :
    pyCountGo pat (u ++ s) u.length = pyCountGo pat s 0 := by
  induction u with
  | nil => rfl
  | cons x u ih => simpa [pyCountGo] using ih

/-- A newline-free pattern is a prefix of `a ++ '\n' :: b` exactly when it
is a prefix of `a`. -/
theorem isPrefixOf_append_nl (pat : Text) (hnl : '\n' ∉ pat) :
    ∀ a b : Text, pat.isPrefixOf (a ++ '\n' :: b) = pat.isPrefixOf a := by
  induction pat with
  | nil => intro a b; simp [List.isPrefixOf]
  | cons p ps ih =>
    intro a b
    have hp : p ≠ '\n' := fun h => hnl (h ▸ List.mem_cons_self p ps)
    cases a with
    | nil =>
      simp only [List.nil_append, List.isPrefixOf]
      simp [beq_eq_false_iff_ne.mpr hp]
    | cons c a =>
      have hps : '\n' ∉ ps := fun h => hnl (List.mem_cons_of_mem p h)
      simp [List.isPrefixOf, ih hps a b]

/-- Unfolding the scan at a non-matching head. -/
theorem pyCountGo_cons_false (pat : Text) (c : Char) (s : Text)
    (h : pat.isPrefixOf (c :: s) = false) :
    pyCountGo pat (c :: s) 0 = pyCountGo pat s 0 := by
  simp [pyCountGo, h]

/-- Unfolding the scan at a matching head. -/
theorem pyCountGo_cons_true (pat : Text) (c : Char) (s : Text)
    (h : pat.isPrefixOf (c :: s) = true) :
    pyCountGo pat (c :: s) 0 = 1 + pyCountGo pat s (pat.length - 1) := by
  simp [pyCountGo, h]

/-- The scan of a newline-free pattern distributes over a newline. -/
theorem pyCount_append_nl (pat : Text) (hne : pat ≠ []) (hnl : '\n' ∉ pat) :
    ∀ a b : Text, pyCount pat (a ++ '\n' :: b) = pyCount pat a + pyCount pat b := by
  suffices h : ∀ n, ∀ a : Text, a.length ≤ n →
      ∀ b, pyCount pat (a ++ '\n' :: b) = pyCount pat a + pyCount pat b by
    intro a b
    exact h a.length a le_rfl b
  intro n
  induction n with
  | zero =>
    intro a ha b
    rw [List.length_eq_zero.mp (Nat.le_zero.mp ha)]
    obtain ⟨p, ps, rfl⟩ := List.exists_cons_of_ne_nil hne
    have hp : p ≠ '\n' := fun h => hnl (h ▸ List.mem_cons_self p ps)
    simp [pyCount, pyCountGo, List.isPrefixOf, beq_eq_false_iff_ne.mpr hp]
  | succ n ih =>
    intro a ha b
    cases a with
    | nil =>
      obtain ⟨p, ps, rfl⟩ := List.exists_cons_of_ne_nil hne
      have hp : p ≠ '\n' := fun h => hnl (h ▸ List.mem_cons_self p ps)
      simp [pyCount, pyCountGo, List.isPrefixOf, beq_eq_false_iff_ne.mpr hp]
    | cons c a =>
      have hpre : pat.isPrefixOf (c :: (a ++ '\n' :: b)) = pat.isPrefixOf (c :: a) := by
        have h0 := isPrefixOf_append_nl pat hnl (c :: a) b
        rwa [List.cons_append] at h0
      have hgoal : (c :: a) ++ '\n' :: b = c :: (a ++ '\n' :: b) := List.cons_append c a _
      by_cases hmatch : pat.isPrefixOf (c :: a) = true
      · obtain ⟨t, ht⟩ : pat <+: c :: a := List.isPrefixOf_iff_prefix.mp hmatch
        obtain ⟨p, ps, rfl⟩ := List.exists_cons_of_ne_nil hne
        have hca : a = ps ++ t := by
          have h1 := congrArg List.tail ht
          simpa using h1.symm
        have hl : t.length ≤ n := by
          have h1 := congrArg List.length hca
          simp only [List.length_append] at h1
          simp only [List.length_cons] at ha
          omega
        have hm2 : (p :: ps).isPrefixOf (c :: (a ++ '\n' :: b)) = true := by
          rw [hpre]
          exact hmatch
        rw [hgoal]
        unfold pyCount
        rw [pyCountGo_cons_true _ _ _ hm2, pyCountGo_cons_true _ _ _ hmatch]
        have hlen : (p :: ps).length - 1 = ps.length := by simp
        rw [hlen, hca, List.append_assoc, pyCountGo_skip, pyCountGo_skip]
        have hih := ih t hl b
        unfold pyCount at hih
        omega
      · have hm : pat.isPrefixOf (c :: a) = false := by
          revert hmatch
          cases pat.isPrefixOf (c :: a) <;> simp
        have hm2 : pat.isPrefixOf (c :: (a ++ '\n' :: b)) = false := by
          rw [hpre]
          exact hm
        rw [hgoal]
        unfold pyCount
        rw [pyCountGo_cons_false _ _ _ hm2, pyCountGo_cons_false _ _ _ hm]
        have hih := ih a (by simp only [List.length_cons] at ha; omega) b
        unfold pyCount at hih
        exact hih

/-- Counting a newline-free pattern in a join is the sum of the counts per
line. -/
theorem pyCount_joinNl (pat : Text) (hne : pat ≠ []) (hnl : '\n' ∉ pat) :
    ∀ ls : List Text, pyCount pat (joinNl ls) = (ls.map (pyCount pat)).sum := by
  intro ls
  induction ls with
  | nil => rfl
  | cons l ls ih =>
    cases ls with
    | nil => simp [joinNl]
    | cons m ms =>
      rw [joinNl_cons_cons, pyCount_append_nl pat hne hnl]
      simp only [List.map_cons, List.sum_cons] at ih ⊢
      omega

/-- A pointwise count of one per matching line sums to `countP`. -/
theorem sum_map_eq_countP (P : Text → Bool) (f : Text → Nat) (ls : List Text)
    (h : ∀ l ∈ ls, f l = if P l then 1 else 0) :
    (ls.map f).sum = ls.countP P := by
  induction ls with
  | nil => rfl
  | cons l rest ih =>
    have hl := h l (List.mem_cons_self l rest)
    have hrest := ih fun x hx => h x (List.mem_cons_of_mem l hx)
    simp only [List.map_cons, List.sum_cons, List.countP_cons, hl, hrest]
    by_cases hp : P l <;> simp [hp] <;> omega

end Maida

namespace Maida

/-- A line without the unquoted substring contributes no quoted occurrence. -/
theorem pyCount_quoted_eq_zero (l : Text) (hp : hasTables2 l = false) :
    pyCount quotedTables2 l = 0 := by
  apply pyCount_of_not_contains
  cases hc : containsSub l quotedTables2 with
  | false => rfl
  | true =>
    exfalso
    have hq : quotedTables2 = ['"'] ++ tables2Pat ++ ['"'] := by decide
    rw [hq] at hc
    have := containsSub_of_wrapped l ['"'] tables2Pat ['"'] hc
    rw [hasTables2] at hp
    rw [hp] at this
    cases this

/-- One deduplication run with at most one quoted occurrence is a no-op. -/
theorem fix_duplicate_tables2_noop (c : Text)
    (h : pyCount quotedTables2 c ≤ 1) : (fix_duplicate_tables2 c).1 = c := by
  unfold fix_duplicate_tables2
  rw [if_neg (by omega)]

/-- Once a single quoted occurrence remains, any number of further runs
changes nothing. -/
theorem dedupRuns_fixed (c : Text) (h : pyCount quotedTables2 c = 1) :
    ∀ n, dedupRuns n c = c := by
  intro n
  induction n with
  | zero => rfl
  | succ n ih =>
    unfold dedupRuns
    rw [fix_duplicate_tables2_noop c (by omega)]
    exact ih

/-- C2: for a settings file whose third-party app list holds exactly two
identical `"django_tables2"` entries — two lines contain the unquoted
substring, each carrying the quoted entry once — one run of the
deduplication patch logs exactly one removal and leaves exactly one
occurrence of the entry, and any number of further runs keeps it at exactly
one. -/
theorem dedup_two_entries_single_occurrence (content : Text)
    (h1 : (splitNl content).countP hasTables2 = 2)
    (h2 : ∀ l ∈ splitNl content, hasTables2 l = true → pyCount quotedTables2 l = 1) :
    (fix_duplicate_tables2 content).2 = 1 ∧
    pyCount quotedTables2 (fix_duplicate_tables2 content).1 = 1 ∧
    ∀ n, pyCount quotedTables2 (dedupRuns n (fix_duplicate_tables2 content).1) = 1 := by
  have hq_ne : quotedTables2 ≠ [] := by decide
  have hq_nl : '\n' ∉ quotedTables2 := by decide
  have hpoint : ∀ l ∈ splitNl content,
      pyCount quotedTables2 l = if hasTables2 l then 1 else 0 := by
    intro l hl
    cases hp : hasTables2 l with
    | true => simp [h2 l hl hp]
    | false => simp [pyCount_quoted_eq_zero l hp]
  have hcount : pyCount quotedTables2 content = 2 := by
    conv_lhs => rw [← joinNl_splitNl content]
    rw [pyCount_joinNl quotedTables2 hq_ne hq_nl,
      sum_map_eq_countP hasTables2 _ _ hpoint]
    exact h1
  have hgt : pyCount quotedTables2 content > 1 := by omega
  have hsub := dedupLoop_sublist (splitNl content) false
  have hpoint2 : ∀ l ∈ (dedupLoop (splitNl content) false).1,
      pyCount quotedTables2 l = if hasTables2 l then 1 else 0 :=
    fun l hl => hpoint l (hsub.subset hl)
  have hresult : pyCount quotedTables2 (joinNl (dedupLoop (splitNl content) false).1) = 1 := by
    rw [pyCount_joinNl quotedTables2 hq_ne hq_nl,
      sum_map_eq_countP hasTables2 _ _ hpoint2,
      dedupLoop_false_countP, h1]
    rfl
  have hfix : fix_duplicate_tables2 content =
      (joinNl (dedupLoop (splitNl content) false).1, (dedupLoop (splitNl content) false).2) := by
    unfold fix_duplicate_tables2
    rw [if_pos hgt]
  refine ⟨?_, ?_, ?_⟩
  · rw [hfix]
    simpa [dedupLoop_false_snd] using by rw [h1]
  · rw [hfix]
    exact hresult
  · intro n
    rw [hfix]
    simp only
    rw [dedupRuns_fixed _ hresult n]
    exact hresult

end Maida

namespace Maida

/-- Witness for C2 at a concrete third-party app list carrying the entry
`"django_tables2"` twice. -/
theorem dedup_two_entries_single_occurrence_witness :
    (fix_duplicate_tables2 (chars "THIRD_PARTY_APPS = [\n    \"crispy_forms\",\n    \"django_tables2\",\n    \"django_tables2\",\n]\n")).2 = 1 ∧
    pyCount quotedTables2 (fix_duplicate_tables2 (chars "THIRD_PARTY_APPS = [\n    \"crispy_forms\",\n    \"django_tables2\",\n    \"django_tables2\",\n]\n")).1 = 1 ∧
    ∀ n, pyCount quotedTables2 (dedupRuns n (fix_duplicate_tables2 (chars "THIRD_PARTY_APPS = [\n    \"crispy_forms\",\n    \"django_tables2\",\n    \"django_tables2\",\n]\n")).1) = 1 :=
  dedup_two_entries_single_occurrence _ (by decide) (by decide)

/-- C8: whenever the quoted count exceeds one, the patch rewrites the file
to keep the first line containing the unquoted substring `django_tables2`
and to drop every later line containing it — also comment lines or
differently quoted entries that the quoted occurrence count never saw —
and logs one removal per dropped line. -/
theorem dedup_filters_by_unquoted (content : Text)
    (h : pyCount quotedTables2 content > 1) :
    (fix_duplicate_tables2 content).1 =
      joinNl (linesAfterFirstRemoved (splitNl content)) ∧
    (fix_duplicate_tables2 content).2 =
      (splitNl content).countP hasTables2 - 1 := by
  unfold fix_duplicate_tables2
  rw [if_pos h]
  exact ⟨congrArg joinNl (dedupLoop_false_fst _), dedupLoop_false_snd _⟩

/-- Witness for C8 at a file whose first `django_tables2` line is a comment:
the two quoted entries below it are both dropped, the comment is kept. -/
theorem dedup_filters_by_unquoted_witness :
    (fix_duplicate_tables2 (chars "# django_tables2 renders tables\nTHIRD_PARTY_APPS = [\n    \"django_tables2\",\n    \"django_tables2\",\n]\n")).1 =
      joinNl (linesAfterFirstRemoved (splitNl (chars "# django_tables2 renders tables\nTHIRD_PARTY_APPS = [\n    \"django_tables2\",\n    \"django_tables2\",\n]\n"))) ∧
    (fix_duplicate_tables2 (chars "# django_tables2 renders tables\nTHIRD_PARTY_APPS = [\n    \"django_tables2\",\n    \"django_tables2\",\n]\n")).2 =
      (splitNl (chars "# django_tables2 renders tables\nTHIRD_PARTY_APPS = [\n    \"django_tables2\",\n    \"django_tables2\",\n]\n")).countP hasTables2 - 1 :=
  dedup_filters_by_unquoted _ (by decide)

end Maida

namespace Maida

/-! ### full_diagnostic.py and comprehensive_validation.py

`ProjectDiagnostic.run_all_checks` runs its checks strictly in sequence and
prints the report at the end.  A check only survives a raised exception
when its body is wrapped in `try`/`except`; `check_environment` and
`check_urls` read files outside any handler, so an unreadable file
propagates out of `run_all_checks`.  Outcomes of the external Django
runtime (imports, settings loading, `showmigrations`) are inputs of the
embedding; the file reads and the issue/warning/fix bookkeeping follow the
source. -/

/-- The state of a file an inspection may read: absent, present but
undecodable (reading raises), or readable text. -/
inductive FData
  | missing
  | unreadable (msg : Text)
  | readable (content : Text)

/-- Whether opening and reading the file succeeds or the file is absent. -/
def FData.notUnreadable : FData → Bool
  | .unreadable _ => false
  | _ => true

/-- The diagnostic's mutable lists `self.issues`, `self.warnings`,
`self.fixes` (a fix is recorded by its description). -/
structure DiagState where
  issues : List Text
  warnings : List Text
  fixes : List Text

def addIssue (st : DiagState) (m : Text) : DiagState :=
  { st with issues := st.issues ++ [m] }

def addWarning (st : DiagState) (m : Text) : DiagState :=
  { st with warnings := st.warnings ++ [m] }

def addFix (st : DiagState) (m : Text) : DiagState :=
  { st with fixes := st.fixes ++ [m] }

/-- The `required_vars` loop body of `check_environment` for one variable:
missing variable or placeholder value each yield an issue. -/
def envVarCheck (content : Text) (var : Text) (st : DiagState) : DiagState :=
  if containsSub content var = false then
    addIssue st (chars "Missing " ++ var ++ chars " in .env")
  else if containsSub content (var ++ chars "=your-") ||
      containsSub content (var ++ chars "=\'your-") then
    addIssue st (var ++ chars " has placeholder value in .env")
  else st

/-- `check_environment`: a missing `.env` is an issue; reading it happens
outside any exception handler, so an unreadable `.env` raises. -/
def check_environment (envFile : FData) (st : DiagState) : Except Unit DiagState :=
  match envFile with
  | .missing => .ok (addIssue st (chars ".env file missing"))
  | .unreadable _ => .error ()
  | .readable content =>
    .ok (envVarCheck content (chars "DATABASE_URL")
      (envVarCheck content (chars "DJANGO_SECRET_KEY") st))

/-- The `required_packages` list of `check_dependencies`. -/
def requiredPackages : List Text :=
  [chars "corsheaders", chars "drf_spectacular", chars "argon2",
    chars "whitenoise", chars "fido2", chars "django_celery_beat"]

/-- One `try: __import__ except ImportError` guard: a failed import is
recorded as an issue. -/
def importCheck (importable : List Text) (name msg : Text) (st : DiagState) : DiagState :=
  if name ∈ importable then st else addIssue st msg

/-- `check_dependencies`: each failed import is caught and recorded as an
issue; `importable` lists the modules the environment can import. -/
def check_dependencies (importable : List Text) (st : DiagState) : DiagState :=
  requiredPackages.foldl
    (fun st p => if p ∈ importable then st
      else addIssue st (chars "Missing package: " ++ p))
    (importCheck importable (chars "wagtail") (chars "Wagtail not installed")
      (importCheck importable (chars "oscar") (chars "Django-Oscar not installed")
        (importCheck importable (chars "django") (chars "Django not installed") st)))

/-- An issue when a required pattern is absent from the file text. -/
def absentCheck (content pat msg : Text) (st : DiagState) : DiagState :=
  if containsSub content pat = false then addIssue st msg else st

/-- The duplicate scan over `INSTALLED_APPS`. -/
def dupAppsCheck (apps : List Text) (st : DiagState) : DiagState :=
  if apps.any (fun a => 1 < apps.count a) then
    addIssue st (chars "Duplicate apps in INSTALLED_APPS")
  else st

/-- `check_settings`: the whole body sits in one `try`/`except Exception`,
so a failing settings import and an unreadable `base.py` alike end up as a
`Cannot load settings` issue; otherwise the Oscar-defaults import is
checked in the file text and `INSTALLED_APPS` is scanned for duplicates
(the Python message carries the duplicate set; the embedding keeps the
fixed message head). -/
def check_settings (settingsImport : Except Text (List Text)) (baseSettings : FData)
    (st : DiagState) : DiagState :=
  match settingsImport with
  | .error e => addIssue st (chars "Cannot load settings: " ++ e)
  | .ok installedApps =>
    match baseSettings with
    | .unreadable msg => addIssue st (chars "Cannot load settings: " ++ msg)
    | .missing => dupAppsCheck installedApps st
    | .readable content =>
      dupAppsCheck installedApps
        (absentCheck content (chars "from oscar.defaults import *")
          (chars "Oscar defaults not imported in base.py") st)

/-- The issue message of a missing Oscar route. -/
def oscarUrlsIssueMsg : Text := chars "Oscar URLs not included in config/urls.py"

/-- The first URL check: a missing Oscar route records the issue and a fix
suggestion. -/
def urlsOscarCheck (content : Text) (st : DiagState) : DiagState :=
  if containsSub content (chars "apps.get_app_config(\'oscar\')") = false then
    addFix (addIssue st oscarUrlsIssueMsg)
      (chars "Add: path(\'\', include(apps.get_app_config(\'oscar\').urls[0])),")
  else st

/-- `check_urls`: nothing happens when the file is absent; reading it sits
outside any handler; four substring checks record issues, the first also
recording a fix suggestion. -/
def check_urls (urlsFile : FData) (st : DiagState) : Except Unit DiagState :=
  match urlsFile with
  | .missing => .ok st
  | .unreadable _ => .error ()
  | .readable content =>
    .ok (absentCheck content (chars "from django.apps import apps")
      (chars "Missing \'from django.apps import apps\' import")
      (absentCheck content (chars "wagtail_urls") (chars "Wagtail URLs not included")
        (absentCheck content (chars "wagtailadmin_urls")
          (chars "Wagtail admin URLs not included")
          (urlsOscarCheck content st))))

/-- `check_models`: only an existence test. -/
def check_models (userModelsExists : Bool) (st : DiagState) : DiagState :=
  if userModelsExists then st
  else addIssue st (chars "Custom user model file missing")

/-- `check_migrations`: wrapped in `try`/`except`, the failure becomes a
warning; `migrations` is the outcome of `showmigrations --plan`. -/
def check_migrations (migrations : Except Text Text) (st : DiagState) : DiagState :=
  match migrations with
  | .error e => addWarning st (chars "Cannot check migrations: " ++ e)
  | .ok out =>
    if containsSub out (chars "[ ]") then
      addWarning st (chars "Unapplied migrations detected")
    else st

/-- `check_templates`: directory existence only. -/
def check_templates (templatesDirExists : Bool) (st : DiagState) : DiagState :=
  if templatesDirExists then st
  else addWarning st (chars "Templates directory missing")

/-- `check_static_files`: directory existence only. -/
def check_static_files (staticDirExists : Bool) (st : DiagState) : DiagState :=
  if staticDirExists then st
  else addWarning st (chars "Static directory missing")

/-- `generate_fixes`: when `str(self.issues)` carries the Oscar-URLs issue
(that is, some recorded issue contains it as a substring), the URL-rewrite
fix script is appended. -/
def generate_fixes (st : DiagState) : DiagState :=
  if st.issues.any (fun i => containsSub i oscarUrlsIssueMsg) then
    addFix st (chars "Fix URL configuration")
  else st

/-- What `print_report` emits: the aggregated lists, the banner choice, and
whether `auto_fix.py` was written (it is exactly when fixes exist). -/
structure DiagReport where
  issues : List Text
  warnings : List Text
  fixes : List Text
  noCriticalIssues : Bool
  fixScriptWritten : Bool

/-- `print_report` as a function of the final state. -/
def print_report (st : DiagState) : DiagReport :=
  { issues := st.issues, warnings := st.warnings, fixes := st.fixes,
    noCriticalIssues := st.issues.isEmpty,
    fixScriptWritten := !st.fixes.isEmpty }

/-- The inputs of one diagnostic run: the inspected files and the outcomes
of the external Django runtime. -/
structure DiagEnv where
  envFile : FData
  urlsFile : FData
  baseSettings : FData
  importable : List Text
  settingsImport : Except Text (List Text)
  migrations : Except Text Text
  userModelsExists : Bool
  templatesDirExists : Bool
  staticDirExists : Bool

/-- `run_all_checks`: the checks in source order, then `generate_fixes` and
`print_report`.  An exception escaping `check_environment` or `check_urls`
aborts the run: no later check runs and no report is printed. -/
def run_all_checks (e : DiagEnv) : Except Unit DiagReport :=
  match check_environment e.envFile ⟨[], [], []⟩ with
  | .error u => .error u
  | .ok st1 =>
    match check_urls e.urlsFile
        (check_settings e.settingsImport e.baseSettings
          (check_dependencies e.importable st1)) with
    | .error u => .error u
    | .ok st2 =>
      .ok (print_report (generate_fixes
        (check_static_files e.staticDirExists
          (check_templates e.templatesDirExists
            (check_migrations e.migrations
              (check_models e.userModelsExists st2))))))

/-- The exit status the shell sees: `full_diagnostic.py` never calls
`sys.exit`, so a completed run exits 0 whatever the issue list holds; an
uncaught exception makes the interpreter exit 1. -/
def diagnostic_exit_code (e : DiagEnv) : Nat :=
  match run_all_checks e with
  | .ok _ => 0
  | .error _ => 1

/-- `ProjectValidator.check_settings_structure` reads each of the four
settings files that exists, outside any handler, and for `base.py` records
an issue per missing critical import. -/
def settingsFileCheck (f : FData) (isBase : Bool) (issues : List Text) :
    Except Unit (List Text) :=
  match f with
  | .missing => .ok issues
  | .unreadable _ => .error ()
  | .readable content =>
    if isBase then
      let i1 := if containsSub content (chars "from oscar.defaults import *") then issues
        else issues ++ [chars "Missing in base.py: oscar_defaults"]
      let i2 := if containsSub content (chars "import environ") then i1
        else i1 ++ [chars "Missing in base.py: environ"]
      .ok (if containsSub content (chars "AUTH_USER_MODEL") then i2
        else i2 ++ [chars "Missing in base.py: auth_user_model"])
    else .ok issues

/-- `check_settings_structure` over `base.py`, `local.py`, `production.py`
and `test.py`. -/
def check_settings_structure (base localS prodS testS : FData)
    (issues : List Text) : Except Unit (List Text) := do
  let issues ← settingsFileCheck base true issues
  let issues ← settingsFileCheck localS false issues
  let issues ← settingsFileCheck prodS false issues
  settingsFileCheck testS false issues

end Maida

namespace Maida

/-! Issue-list facts: each check of the diagnostic only appends to
`self.issues` (or leaves it alone), so an issue once recorded is still in
the printed report. -/

theorem importCheck_keeps_issues (imp : List Text) (n m : Text) (st : DiagState) :
    st.issues <+: (importCheck imp n m st).issues := by
  unfold importCheck
  split
  · exact List.prefix_refl _
  · exact List.prefix_append _ _

theorem absentCheck_keeps_issues (c p m : Text) (st : DiagState) :
    st.issues <+: (absentCheck c p m st).issues := by
  unfold absentCheck
  split
  · exact List.prefix_append _ _
  · exact List.prefix_refl _

theorem dupAppsCheck_keeps_issues (apps : List Text) (st : DiagState) :
    st.issues <+: (dupAppsCheck apps st).issues := by
  unfold dupAppsCheck
  split
  · exact List.prefix_append _ _
  · exact List.prefix_refl _

theorem check_dependencies_keeps_issues (imp : List Text) (st : DiagState) :
    st.issues <+: (check_dependencies imp st).issues := by
  unfold check_dependencies
  have hfold : ∀ (ps : List Text) (st : DiagState),
      st.issues <+: (ps.foldl (fun st p => if p ∈ imp then st
        else addIssue st (chars "Missing package: " ++ p)) st).issues := by
    intro ps
    induction ps with
    | nil => intro st; exact List.prefix_refl _
    | cons p ps ih =>
      intro st
      rw [List.foldl_cons]
      refine List.IsPrefix.trans ?_ (ih _)
      split
      · exact List.prefix_refl _
      · exact List.prefix_append _ _
  refine List.IsPrefix.trans ?_ (hfold requiredPackages _)
  refine List.IsPrefix.trans ?_ (importCheck_keeps_issues _ _ _ _)
  refine List.IsPrefix.trans ?_ (importCheck_keeps_issues _ _ _ _)
  exact importCheck_keeps_issues _ _ _ _

theorem check_settings_keeps_issues (si : Except Text (List Text)) (b : FData)
    (st : DiagState) : st.issues <+: (check_settings si b st).issues := by
  unfold check_settings
  cases si with
  | error e => exact List.prefix_append _ _
  | ok apps =>
    cases b with
    | missing => exact dupAppsCheck_keeps_issues _ _
    | unreadable m => exact List.prefix_append _ _
    | readable c =>
      exact List.IsPrefix.trans (absentCheck_keeps_issues _ _ _ _) (dupAppsCheck_keeps_issues _ _)

theorem urlsOscarCheck_keeps_issues (c : Text) (st : DiagState) :
    st.issues <+: (urlsOscarCheck c st).issues := by
  unfold urlsOscarCheck
  split
  · exact List.prefix_append _ _
  · exact List.prefix_refl _

/-- The chain of checks `check_urls` runs on a readable file only appends
issues. -/
theorem urls_readable_keeps_issues (c : Text) (st : DiagState) :
    st.issues <+:
      (absentCheck c (chars "from django.apps import apps")
        (chars "Missing \'from django.apps import apps\' import")
        (absentCheck c (chars "wagtail_urls") (chars "Wagtail URLs not included")
          (absentCheck c (chars "wagtailadmin_urls")
            (chars "Wagtail admin URLs not included")
            (urlsOscarCheck c st)))).issues := by
  refine List.IsPrefix.trans (urlsOscarCheck_keeps_issues c st) ?_
  refine List.IsPrefix.trans
    (absentCheck_keeps_issues c (chars "wagtailadmin_urls")
      (chars "Wagtail admin URLs not included") (urlsOscarCheck c st)) ?_
  refine List.IsPrefix.trans
    (absentCheck_keeps_issues c (chars "wagtail_urls") (chars "Wagtail URLs not included")
      (absentCheck c (chars "wagtailadmin_urls")
        (chars "Wagtail admin URLs not included") (urlsOscarCheck c st))) ?_
  exact absentCheck_keeps_issues c (chars "from django.apps import apps")
    (chars "Missing \'from django.apps import apps\' import")
    (absentCheck c (chars "wagtail_urls") (chars "Wagtail URLs not included")
      (absentCheck c (chars "wagtailadmin_urls")
        (chars "Wagtail admin URLs not included") (urlsOscarCheck c st)))

theorem check_models_keeps_issues (b : Bool) (st : DiagState) :
    st.issues <+: (check_models b st).issues := by
  unfold check_models
  split
  · exact List.prefix_refl _
  · exact List.prefix_append _ _

theorem check_migrations_issues (m : Except Text Text) (st : DiagState) :
    (check_migrations m st).issues = st.issues := by
  cases m with
  | error e => rfl
  | ok out =>
    show (if containsSub out (chars "[ ]") = true
      then addWarning st (chars "Unapplied migrations detected") else st).issues
      = st.issues
    split <;> rfl

theorem check_templates_issues (b : Bool) (st : DiagState) :
    (check_templates b st).issues = st.issues := by
  unfold check_templates addWarning
  split <;> rfl

theorem check_static_files_issues (b : Bool) (st : DiagState) :
    (check_static_files b st).issues = st.issues := by
  unfold check_static_files addWarning
  split <;> rfl

theorem generate_fixes_issues (st : DiagState) :
    (generate_fixes st).issues = st.issues := by
  unfold generate_fixes addFix
  split <;> rfl

/-- The checks after `check_urls` and the fix generation keep every
recorded issue. -/
theorem tail_checks_keep_issues (um : Bool) (mig : Except Text Text) (td sd : Bool)
    (st : DiagState) :
    st.issues <+: (generate_fixes (check_static_files sd (check_templates td
      (check_migrations mig (check_models um st))))).issues := by
  rw [generate_fixes_issues, check_static_files_issues, check_templates_issues,
    check_migrations_issues]
  exact check_models_keeps_issues um st

/-- `check_dependencies` then `check_settings` keep every recorded issue. -/
theorem mid_checks_keep_issues (imp : List Text) (sett : Except Text (List Text))
    (base : FData) (st : DiagState) :
    st.issues <+: (check_settings sett base (check_dependencies imp st)).issues :=
  List.IsPrefix.trans (check_dependencies_keeps_issues imp st)
    (check_settings_keeps_issues sett base _)

end Maida

namespace Maida

/-- C5 counterexample: an inspected file that exists but cannot be decoded
aborts the whole run.  In the diagnostic an unreadable `.env` makes
`check_environment` raise outside any handler, so `run_all_checks` ends in
the exception — no finding is recorded and no report is printed; the
validator's `check_settings_structure` likewise propagates the raise on an
unreadable `base.py`. -/
theorem unreadable_file_aborts_run :
    run_all_checks
      { envFile := FData.unreadable (chars "UnicodeDecodeError"),
        urlsFile := FData.missing, baseSettings := FData.missing,
        importable := [], settingsImport := Except.error (chars "no django"),
        migrations := Except.error (chars "no django"),
        userModelsExists := false, templatesDirExists := false,
        staticDirExists := false } = Except.error () ∧
    check_settings_structure (FData.unreadable (chars "UnicodeDecodeError"))
      FData.missing FData.missing FData.missing [] = Except.error () :=
  ⟨rfl, rfl⟩

/-- C5 (amended): a missing file is a recorded finding and the run carries
on to the report — when `.env` is missing its issue is in the printed
report — but this holds only while no inspected file is unreadable: an
unreadable `.env` or `config/urls.py` aborts the run before the report. -/
theorem missing_recorded_run_continues (e : DiagEnv)
    (h1 : e.envFile.notUnreadable = true)
    (h2 : e.urlsFile.notUnreadable = true) :
    ∃ r, run_all_checks e = Except.ok r ∧
      (e.envFile = FData.missing → chars ".env file missing" ∈ r.issues) := by
  obtain ⟨env, urls, base, imp, sett, mig, um, td, sd⟩ := e
  cases env with
  | unreadable m => simp [FData.notUnreadable] at h1
  | readable c =>
    cases urls with
    | unreadable m => simp [FData.notUnreadable] at h2
    | missing => exact ⟨_, rfl, fun hm => FData.noConfusion hm⟩
    | readable c2 => exact ⟨_, rfl, fun hm => FData.noConfusion hm⟩
  | missing =>
    have hmem : chars ".env file missing" ∈
        (addIssue (⟨[], [], []⟩ : DiagState) (chars ".env file missing")).issues := by
      simp [addIssue]
    cases urls with
    | unreadable m => simp [FData.notUnreadable] at h2
    | missing =>
      refine ⟨_, rfl, fun _ => ?_⟩
      exact ((mid_checks_keep_issues imp sett base _).trans
        (tail_checks_keep_issues um mig td sd _)).subset hmem
    | readable c2 =>
      refine ⟨_, rfl, fun _ => ?_⟩
      exact ((mid_checks_keep_issues imp sett base _).trans
        ((urls_readable_keeps_issues c2 _).trans
          (tail_checks_keep_issues um mig td sd _))).subset hmem

/-- A run in which `.env` is missing and every other input is in order. -/
def diagEnvMissingDotEnv : DiagEnv :=
  { envFile := FData.missing, urlsFile := FData.missing,
    baseSettings := FData.missing, importable := [],
    settingsImport := Except.error (chars "no django"),
    migrations := Except.error (chars "no django"),
    userModelsExists := true, templatesDirExists := true,
    staticDirExists := true }

/-- Witness for the amended C5: a run with `.env` missing and everything
else in order completes, and the report carries the missing-file finding. -/
theorem missing_recorded_run_continues_witness :
    ∃ r, run_all_checks diagEnvMissingDotEnv = Except.ok r ∧
      (diagEnvMissingDotEnv.envFile = FData.missing →
        chars ".env file missing" ∈ r.issues) :=
  missing_recorded_run_continues diagEnvMissingDotEnv (by decide) (by decide)

end Maida

namespace Maida

/-- C6 counterexample: a completed run with a non-empty issues list —
`.env` missing, Django not importable — still hands exit status 0 to the
shell: neither diagnostic script calls `sys.exit`, so remaining critical
issues never turn into a non-zero exit. -/
theorem issues_left_but_exit_zero :
    (∃ r, run_all_checks diagEnvMissingDotEnv = Except.ok r ∧ r.issues ≠ []) ∧
    diagnostic_exit_code diagEnvMissingDotEnv = 0 := by
  refine ⟨⟨_, rfl, ?_⟩, rfl⟩
  decide

/-- C6 (amended): whenever the run completes it always emits its report and
always signals success (exit 0) to the shell, whatever the issues list
holds; the issues list only selects the printed banner, which announces no
critical issues exactly when the list is empty.  (A run aborted by an
unreadable file exits non-zero with no report.) -/
theorem completed_run_exit_zero (e : DiagEnv) (r : DiagReport)
    (h : run_all_checks e = Except.ok r) :
    diagnostic_exit_code e = 0 ∧ (r.noCriticalIssues = true ↔ r.issues = []) := by
  constructor
  · unfold diagnostic_exit_code
    rw [h]
  · obtain ⟨st, rfl⟩ : ∃ st, r = print_report st := by
      unfold run_all_checks at h
      split at h
      · exact Except.noConfusion h
      · split at h
        · exact Except.noConfusion h
        · exact ⟨_, ((Except.ok.injEq _ _).mp h).symm⟩
    simp [print_report, List.isEmpty_iff]

/-- The report of the run on `diagEnvMissingDotEnv` (the run completes, so
the fallback branch is never taken). -/
def diagReportOfMissingDotEnv : DiagReport :=
  match run_all_checks diagEnvMissingDotEnv with
  | .ok r => r
  | .error _ => ⟨[], [], [], true, false⟩

/-- Witness for the amended C6 at the concrete completed run. -/
theorem completed_run_exit_zero_witness :
    diagnostic_exit_code diagEnvMissingDotEnv = 0 ∧
    (diagReportOfMissingDotEnv.noCriticalIssues = true ↔
      diagReportOfMissingDotEnv.issues = []) :=
  completed_run_exit_zero diagEnvMissingDotEnv diagReportOfMissingDotEnv rfl

end Maida

namespace Maida

/-! ### The URL patch of full_diagnostic.generate_fixes (C7) -/

/-- The complete `config/urls.py` content the generated fix script writes
when the Oscar route is missing (source lines 199–223). -/
def urlsFixTemplate : Text :=
  chars "from django.conf import settings\nfrom django.conf.urls.static import static\nfrom django.contrib import admin\nfrom django.urls import include, path\nfrom django.apps import apps\n\n# Import Wagtail URLs\nfrom wagtail.admin import urls as wagtailadmin_urls\nfrom wagtail import urls as wagtail_urls\nfrom wagtail.documents import urls as wagtaildocs_urls\n\nurlpatterns = [\n    path(\"admin/\", admin.site.urls),\n    path(\'cms/\', include(wagtailadmin_urls)),\n    path(\'documents/\', include(wagtaildocs_urls)),\n    path(\"accounts/\", include(\"allauth.urls\")),\n    path(\'\', include(apps.get_app_config(\'oscar\').urls[0])),\n    path(\'\', include(wagtail_urls)),\n] + static(settings.MEDIA_URL, document_root=settings.MEDIA_ROOT)\n\nif settings.DEBUG:\n    if \"debug_toolbar\" in settings.INSTALLED_APPS:\n        import debug_toolbar\n        urlpatterns = [path(\"__debug__/\", include(debug_toolbar.urls))] + urlpatterns\n"

/-- Bracket matching over `(`/`)` and `[`/`]` with an explicit stack. -/
def bracketScan : Text → List Char → Bool
  | [], stack => stack.isEmpty
  | c :: rest, stack =>
    if c = '(' || c = '[' then bracketScan rest (c :: stack)
    else if c = ')' then
      match stack with
      | '(' :: s => bracketScan rest s
      | _ => false
    else if c = ']' then
      match stack with
      | '[' :: s => bracketScan rest s
      | _ => false
    else bracketScan rest stack

/-- Modelled from the spec: "the resulting file still parses as valid
routing configuration".  The Python parser lives outside this repository,
so validity is approximated structurally: the imports the inserted route
needs are present, a `urlpatterns` assignment is present, and all round
and square brackets pair up. -/
def validUrlConf (c : Text) : Bool :=
  containsSub c (chars "from django.urls import include, path") &&
  containsSub c (chars "from django.apps import apps") &&
  containsSub c (chars "urlpatterns = [") &&
  bracketScan c []

/-- Every text contains itself. -/
theorem containsSub_self (s : Text) : containsSub s s = true :=
  (containsSub_iff s s).mpr ⟨[], [], by simp⟩

set_option maxRecDepth 16384

/-- C7: on a URL-routing file missing the Oscar route, `check_urls` records
the deficiency, `generate_fixes` registers the URL patch, and the file the
patch writes contains the Oscar route exactly once, on the line immediately
before the Wagtail page-serving catch-all, in a structurally valid routing
configuration. -/
theorem urls_fix_route_before_catchall (c : Text)
    (h : containsSub c (chars "apps.get_app_config(\'oscar\')") = false) :
    (∃ st, check_urls (FData.readable c) ⟨[], [], []⟩ = Except.ok st ∧
      oscarUrlsIssueMsg ∈ st.issues ∧
      chars "Fix URL configuration" ∈ (generate_fixes st).fixes) ∧
    (splitNl urlsFixTemplate).get? 16 =
      some (chars "    path(\'\', include(apps.get_app_config(\'oscar\').urls[0])),") ∧
    (splitNl urlsFixTemplate).get? 17 =
      some (chars "    path(\'\', include(wagtail_urls)),") ∧
    (splitNl urlsFixTemplate).countP
      (fun l => containsSub l (chars "apps.get_app_config(\'oscar\')")) = 1 ∧
    validUrlConf urlsFixTemplate = true := by
  refine ⟨?_, by decide, by decide, by decide, by decide⟩
  have h0 : oscarUrlsIssueMsg ∈ (urlsOscarCheck c ⟨[], [], []⟩).issues := by
    unfold urlsOscarCheck
    rw [if_pos h]
    simp [addFix, addIssue]
  refine ⟨_, rfl, ?_, ?_⟩
  · exact (List.IsPrefix.trans
      (absentCheck_keeps_issues c (chars "wagtailadmin_urls")
        (chars "Wagtail admin URLs not included") (urlsOscarCheck c ⟨[], [], []⟩))
      (List.IsPrefix.trans
        (absentCheck_keeps_issues c (chars "wagtail_urls")
          (chars "Wagtail URLs not included")
          (absentCheck c (chars "wagtailadmin_urls")
            (chars "Wagtail admin URLs not included") (urlsOscarCheck c ⟨[], [], []⟩)))
        (absentCheck_keeps_issues c (chars "from django.apps import apps")
          (chars "Missing \'from django.apps import apps\' import")
          (absentCheck c (chars "wagtail_urls") (chars "Wagtail URLs not included")
            (absentCheck c (chars "wagtailadmin_urls")
              (chars "Wagtail admin URLs not included")
              (urlsOscarCheck c ⟨[], [], []⟩)))))).subset h0
  · unfold generate_fixes
    rw [if_pos]
    · unfold addFix
      simp
    · apply List.any_eq_true.mpr
      refine ⟨oscarUrlsIssueMsg, ?_, containsSub_self _⟩
      exact (List.IsPrefix.trans
        (absentCheck_keeps_issues c (chars "wagtailadmin_urls")
          (chars "Wagtail admin URLs not included") (urlsOscarCheck c ⟨[], [], []⟩))
        (List.IsPrefix.trans
          (absentCheck_keeps_issues c (chars "wagtail_urls")
            (chars "Wagtail URLs not included")
            (absentCheck c (chars "wagtailadmin_urls")
              (chars "Wagtail admin URLs not included") (urlsOscarCheck c ⟨[], [], []⟩)))
          (absentCheck_keeps_issues c (chars "from django.apps import apps")
            (chars "Missing \'from django.apps import apps\' import")
            (absentCheck c (chars "wagtail_urls") (chars "Wagtail URLs not included")
              (absentCheck c (chars "wagtailadmin_urls")
                (chars "Wagtail admin URLs not included")
                (urlsOscarCheck c ⟨[], [], []⟩)))))).subset h0

/-- Witness for C7 at a concrete routing file with no Oscar route. -/
theorem urls_fix_route_before_catchall_witness :
    (∃ st, check_urls (FData.readable (chars "urlpatterns = []\n")) ⟨[], [], []⟩ =
        Except.ok st ∧
      oscarUrlsIssueMsg ∈ st.issues ∧
      chars "Fix URL configuration" ∈ (generate_fixes st).fixes) ∧
    (splitNl urlsFixTemplate).get? 16 =
      some (chars "    path(\'\', include(apps.get_app_config(\'oscar\').urls[0])),") ∧
    (splitNl urlsFixTemplate).get? 17 =
      some (chars "    path(\'\', include(wagtail_urls)),") ∧
    (splitNl urlsFixTemplate).countP
      (fun l => containsSub l (chars "apps.get_app_config(\'oscar\')")) = 1 ∧
    validUrlConf urlsFixTemplate = true :=
  urls_fix_route_before_catchall (chars "urlpatterns = []\n") (by decide)

end Maida
